import Mathlib

/-!
Shallow embedding of the `sketchybartender` daemon core
(`src/main.rs`, `src/sketchybar.rs`, `src/icon_map.rs`):
the IPC message dispatcher, the shared daemon state, the front-app
deduplication handler, the debounced workspace-refresh engine, and the
brew label computation of the render layer.

Time is modelled in milliseconds as `Nat` (`Instant::duration_since`
saturates at zero, matching `Nat` subtraction).  External collaborators
(the aerospace workspace manager, the monitor mapper's cached mapping,
the generated icon tables) are inputs to the embedded functions.
Render-sink calls are modelled as emitted instruction values rather than
executed side effects.
-/

namespace Sketchybartender

/-- A render instruction accumulated by `SketchybarBatch` (sketchybar.rs):
`set` appends `--set item k=v ...`, `animate` appends `--animate curve dur`. -/
inductive Instr where
  | set (item : String) (props : List (String × String))
  | animate (curve : String) (duration : Nat)
deriving DecidableEq

/-- The property list carried by a `set` instruction. -/
def instrProps : Instr → List (String × String)
  | .set _ props => props
  | .animate _ _ => []

/-- Per-workspace occupancy snapshot (`aerospace::WorkspaceInfo`), as consumed
by `handle_workspace_refresh`: `apps` is only used through `is_empty`. -/
structure WorkspaceInfo where
  apps : List String
  icons : String
  is_focused : Bool
  monitor_id : Nat
deriving DecidableEq

/-- `DaemonState` (main.rs lines 21-29).  The `MonitorMapper` field is
represented by the ordered list of `(display id, aerospace monitor id)`
pairs that its accessor `get_mappings()` returns, which is the only way
`handle_workspace_refresh` consumes it. -/
structure DaemonState where
  front_app : String
  last_workspace_refresh : Option Nat
  monitor_mappings : List (Nat × Nat)
deriving DecidableEq

/-! ## Workspace refresh engine (main.rs `handle_workspace_refresh`) -/

/-- Background color rotation (main.rs lines 249-254): `match i % 3`
with arms 1, 2, 0; the remaining arm is `unreachable!()`. -/
def bg_color (i : Nat) : String :=
  match i % 3 with
  | 1 => "0xff83a598"
  | 2 => "0xffd3869b"
  | 0 => "0xff8ec07c"
  | _ => "unreachable"

/-- `infos.get(&ws_id)` for slot `i` (main.rs line 240). -/
def slotInfo (infos : List (String × WorkspaceInfo)) (i : Nat) : Option WorkspaceInfo :=
  infos.lookup (toString i)

/-- `info.map(|i| !i.apps.is_empty()).unwrap_or(false)` (main.rs line 241). -/
def slot_has_apps (infos : List (String × WorkspaceInfo)) (i : Nat) : Bool :=
  ((slotInfo infos i).map (fun j => !j.apps.isEmpty)).getD false

/-- `info.map(|i| i.is_focused).unwrap_or(false)` (main.rs line 242). -/
def slot_is_focused (infos : List (String × WorkspaceInfo)) (i : Nat) : Bool :=
  ((slotInfo infos i).map (fun j => j.is_focused)).getD false

/-- `info.map(|i| i.icons.as_str()).unwrap_or("")` (main.rs line 243). -/
def slot_icons (infos : List (String × WorkspaceInfo)) (i : Nat) : String :=
  ((slotInfo infos i).map (fun j => j.icons)).getD ""

/-- `info.map(|i| i.monitor_id).unwrap_or(1)` (main.rs line 244). -/
def slot_monitor (infos : List (String × WorkspaceInfo)) (i : Nat) : Nat :=
  ((slotInfo infos i).map (fun j => j.monitor_id)).getD 1

/-- The four-branch property computation for one slot
(main.rs lines 263-308), given the already-resolved display id. -/
def slotInstr (ws_id : String) (bg : String) (has_apps is_focused : Bool)
    (icons : String) (display_id : Nat) : Instr :=
  let item_name := "workspace." ++ ws_id
  if has_apps && is_focused then
    .set item_name
      [("label", ws_id), ("label.color", "0xff1d2021"), ("icon", icons),
       ("icon.color", "0xff1d2021"), ("icon.drawing", "on"), ("drawing", "on"),
       ("background.drawing", "on"), ("background.color", bg),
       ("display", toString display_id)]
  else if has_apps then
    .set item_name
      [("label", ws_id), ("label.color", "0xffffffff"), ("icon.color", "0xffffffff"),
       ("icon", icons), ("icon.drawing", "on"), ("drawing", "on"),
       ("background.drawing", "off"), ("display", toString display_id)]
  else if is_focused then
    .set item_name
      [("label", " " ++ ws_id), ("label.color", "0xff1d2021"),
       ("icon.color", "0xff1d2021"), ("drawing", "on"), ("icon.drawing", "off"),
       ("background.drawing", "on"), ("background.color", bg),
       ("display", toString display_id)]
  else
    .set item_name
      [("label", " " ++ ws_id), ("label.color", "0xffffffff"),
       ("icon.color", "0xffffffff"), ("drawing", "on"), ("icon.drawing", "off"),
       ("background.drawing", "off"), ("display", toString display_id)]

/-- The scan over `monitor_mappings` (main.rs lines 258-312): the first entry
whose aerospace monitor id equals the workspace's monitor wins (`break`);
`none` corresponds to `found == false`. -/
def findDisplay (mappings : List (Nat × Nat)) (workspace_monitor : Nat) : Option Nat :=
  match mappings with
  | [] => none
  | (display_id, aerospace_monitor_id) :: rest =>
    if aerospace_monitor_id = workspace_monitor then some display_id
    else findDisplay rest workspace_monitor

/-- The warning logged when no display matches (main.rs line 315). -/
def slotWarning (infos : List (String × WorkspaceInfo)) (i : Nat) : String :=
  "Warning: No display found for workspace " ++ toString i ++
    " (monitor " ++ toString (slot_monitor infos i) ++ ")"

/-- One iteration of the slot loop (main.rs lines 238-317): at most one
instruction, tagged with the display id of the batch it is appended to;
on no match, a warning instead. -/
def slotRender (mappings : List (Nat × Nat)) (infos : List (String × WorkspaceInfo))
    (i : Nat) : List (Nat × Instr) × List String :=
  match findDisplay mappings (slot_monitor infos i) with
  | some display_id =>
    ([(display_id,
       slotInstr (toString i) (bg_color i) (slot_has_apps infos i)
         (slot_is_focused infos i) (slot_icons infos i) display_id)], [])
  | none => ([], [slotWarning infos i])

/-- The slot loop over a list of slot indices, concatenating emitted
instructions and warnings in iteration order. -/
def renderSlots (mappings : List (Nat × Nat)) (infos : List (String × WorkspaceInfo)) :
    List Nat → List (Nat × Instr) × List String
  | [] => ([], [])
  | i :: rest =>
    let r := slotRender mappings infos i
    let rs := renderSlots mappings infos rest
    (r.1 ++ rs.1, r.2 ++ rs.2)

/-- `for i in 1..=9` (main.rs line 238). -/
def slotIds : List Nat := [1, 2, 3, 4, 5, 6, 7, 8, 9]

/-- `handle_workspace_refresh` (main.rs lines 201-325).  `lockOk` models the
poison state of the state mutex for this invocation (both `state.lock()`
calls fail when it is poisoned; on failure the handler returns).  `now` is
the current monotonic time in milliseconds; the debounce compares
`now.duration_since(last).as_millis() < 100` (saturating subtraction).
Returns the new state, the emitted `(display id, instruction)` list in
emission order, and the warnings logged by the slot loop. -/
def handle_workspace_refresh (lockOk : Bool) (now : Nat)
    (infos : List (String × WorkspaceInfo)) (s : DaemonState) :
    DaemonState × List (Nat × Instr) × List String :=
  if lockOk then
    match s.last_workspace_refresh with
    | some last =>
      if now - last < 100 then
        (s, [], [])
      else
        let s2 := { s with last_workspace_refresh := some now }
        let r := renderSlots s.monitor_mappings infos slotIds
        (s2, r.1, r.2)
    | none =>
      let s2 := { s with last_workspace_refresh := some now }
      let r := renderSlots s.monitor_mappings infos slotIds
      (s2, r.1, r.2)
  else
    (s, [], [])

/-! ## Front-app handler (main.rs `handle_front_app`, icon_map.rs) -/

/-- Rust `str::starts_with`, on the underlying character lists. -/
def isPrefixChars : List Char → List Char → Bool
  | [], _ => true
  | _ :: _, [] => false
  | a :: as, b :: bs => a = b && isPrefixChars as bs

/-- The `PREFIX_PATTERNS` scan of `get_icon` (icon_map.rs lines 12-16):
first pattern that is a prefix of the app name wins. -/
def patternIcon : List (String × String) → String → Option String
  | [], _ => none
  | (pat, icon) :: rest, app_name =>
    if isPrefixChars pat.toList app_name.toList then some icon
    else patternIcon rest app_name

/-- `get_icon` (icon_map.rs lines 5-20): exact match in `ICON_MAP`, then
prefix patterns, then the default glyph.  The two tables are generated at
build time and are passed in as data. -/
def get_icon (iconMap pats : List (String × String)) (app_name : String) : String :=
  match iconMap.lookup app_name with
  | some icon => icon
  | none =>
    match patternIcon pats app_name with
    | some icon => icon
    | none => ":default:"

/-- `sketchybar::update_front_app` (sketchybar.rs lines 88-93). -/
def update_front_app (icon app_name : String) : Instr :=
  .set "front_app" [("icon", icon), ("label", "❯ " ++ app_name)]

/-- Observable events of one `handle_front_app` invocation, in program
order: lock acquisition, lock release (the `MutexGuard` drop at the end of
the `if let Ok` block or at the early `return`), and render-sink calls. -/
inductive FAEvent where
  | lockAcquire
  | lockRelease
  | render (ins : Instr)
deriving DecidableEq

/-- `handle_front_app` (main.rs lines 181-199).  `app` is the explicit
argument, `aero` the result `aerospace::get_focused_app()` would return,
`lockOk` the poison state of the state mutex.  Note that when `state.lock()`
fails the `if let Ok` block is skipped and control falls through to the
`sketchybar::update_front_app` call at line 195. -/
def handle_front_app (iconMap pats : List (String × String))
    (app : Option String) (aero : Option String) (lockOk : Bool)
    (s : DaemonState) : DaemonState × List FAEvent :=
  match app.orElse (fun _ => aero) with
  | none => (s, [])
  | some app_name =>
    let icon := get_icon iconMap pats app_name
    if lockOk then
      if s.front_app = app_name then
        (s, [.lockAcquire, .lockRelease])
      else
        ({ s with front_app := app_name },
         [.lockAcquire, .lockRelease, .render (update_front_app icon app_name)])
    else
      (s, [.render (update_front_app icon app_name)])

/-! ## Message dispatcher (main.rs `handle_client`) -/

/-- Split a character list at its first space character:
`some (before, after)` when a space occurs, `none` otherwise. -/
def splitAtSpace : List Char → Option (List Char × List Char)
  | [] => none
  | c :: cs =>
    if c = ' ' then some ([], cs)
    else
      match splitAtSpace cs with
      | none => none
      | some (p, q) => some (c :: p, q)

/-- Rust `str::splitn(n, ' ')`: at most `n` pieces, split at the space
character only, the final piece not further split. -/
def splitnSpace : Nat → List Char → List (List Char)
  | 0, _ => []
  | 1, cs => [cs]
  | n + 2, cs =>
    match splitAtSpace cs with
    | none => [cs]
    | some (p, q) => p :: splitnSpace (n + 1) q

/-- Rejoin split pieces with single spaces (specification device used to
characterize `splitnSpace`). -/
def joinTok : List (List Char) → List Char
  | [] => []
  | [t] => t
  | t :: u :: ts => t ++ ' ' :: joinTok (u :: ts)

/-- Rust `str::trim`: strip leading and trailing whitespace characters
(here the ASCII whitespace set; the claims only involve spaces and tabs). -/
def trimChars (cs : List Char) : List Char :=
  ((cs.dropWhile Char.isWhitespace).reverse.dropWhile Char.isWhitespace).reverse

/-- `line.trim().splitn(3, ' ')` (main.rs line 61). -/
def tokenize (line : String) : List String :=
  (splitnSpace 3 (trimChars line.toList)).map (fun cs => String.mk cs)

/-- Rust `str::parse::<u8>`: optional leading sign, then one or more ASCII
digits, value below 256. -/
def parseU8 (s : String) : Option Nat :=
  let cs :=
    match s.toList with
    | '+' :: rest => rest
    | other => other
  if cs.isEmpty then none
  else if cs.all Char.isDigit then
    let v := cs.foldl (fun acc c => acc * 10 + (c.toNat - 48)) 0
    if v < 256 then some v else none
  else none

/-- The handler invocation a dispatched line results in. -/
inductive Action where
  | clock
  | battery
  | volume (level : Option Nat)
  | focusChange (app : Option String)
  | workspaceChange
  | brew
  | brewUpgrade
  | teams
  | unknown (line : String)
deriving DecidableEq

/-- One iteration of the message loop of `handle_client` (main.rs lines
61-79).  The `focus-change` arm calls `handle_front_app(None, &state)`:
the second token of the message is not forwarded. -/
def dispatch (line : String) : Action :=
  let parts := tokenize line
  match parts.head? with
  | some "clock" => .clock
  | some "battery" => .battery
  | some "volume" => .volume ((parts.get? 1).bind (fun v => parseU8 v))
  | some "focus-change" => .focusChange none
  | some "workspace-change" => .workspaceChange
  | some "brew" => .brew
  | some "brew-upgrade" => .brewUpgrade
  | some "teams" => .teams
  | _ => .unknown line

/-! ## Brew label (sketchybar.rs `update_brew`) -/

/-- The label computation of `update_brew` (sketchybar.rs lines 97-102). -/
def brewLabel (formulae casks : Nat) : String :=
  let total := formulae + casks
  if total = 0 then "✓" else toString total

/-- `sketchybar::update_brew` (sketchybar.rs lines 96-107). -/
def update_brew (icon : String) (formulae casks : Nat) : Instr :=
  .set "brew" [("icon", icon), ("label", brewLabel formulae casks)]

/-! ## Branch classification helpers -/

/-- The four visual branches of the slot classification (main.rs lines
263-308 and spec section 4.4 step 5). -/
inductive Branch where
  | occupiedFocused
  | occupiedUnfocused
  | emptyFocused
  | emptyUnfocused
deriving DecidableEq

/-- The branch the source's if/else chain selects for a boolean pair. -/
def branchOf (has_apps is_focused : Bool) : Branch :=
  if has_apps && is_focused then .occupiedFocused
  else if has_apps then .occupiedUnfocused
  else if is_focused then .emptyFocused
  else .emptyUnfocused

/-- Which branch an emitted property list exhibits, read off the
`icon.drawing` / `background.drawing` values that distinguish the four
branches. -/
def observedBranch (props : List (String × String)) : Branch :=
  if props.lookup "icon.drawing" == some "on" then
    if props.lookup "background.drawing" == some "on" then .occupiedFocused
    else .occupiedUnfocused
  else
    if props.lookup "background.drawing" == some "on" then .emptyFocused
    else .emptyUnfocused

/-! ## Claim theorems -/

/-- Claim C1: a `workspace-change` refresh arriving less than 100 ms after
the recorded last refresh emits zero render instructions and leaves the
state (in particular the stored timestamp) unchanged; with a gap of at
least 100 ms, or with no prior refresh recorded, it proceeds to a full
render pass and stores the current time. -/
theorem workspace_refresh_debounce (s : DaemonState) (now : Nat)
    (infos : List (String × WorkspaceInfo)) :
    (∀ last, s.last_workspace_refresh = some last → now - last < 100 →
        handle_workspace_refresh true now infos s = (s, [], []))
    ∧ ((s.last_workspace_refresh = none ∨
          ∃ last, s.last_workspace_refresh = some last ∧ 100 ≤ now - last) →
        (handle_workspace_refresh true now infos s).1 =
            { s with last_workspace_refresh := some now }
        ∧ (handle_workspace_refresh true now infos s).2.1 =
            (renderSlots s.monitor_mappings infos slotIds).1) := by
  constructor
  · intro last hlast hlt
    simp [handle_workspace_refresh, hlast, hlt]
  · intro h
    rcases h with hnone | ⟨last, hlast, hge⟩
    · simp [handle_workspace_refresh, hnone]
    · have hnl : ¬ (now - last < 100) := by omega
      simp [handle_workspace_refresh, hlast, hnl]

/-- Witness for C1: a refresh at time 100, 50 ms after a refresh recorded
at time 50, is dropped; a refresh at time 200 proceeds and stores 200. -/
theorem workspace_refresh_debounce_witness :
    handle_workspace_refresh true 100 [] ⟨"", some 50, []⟩ = (⟨"", some 50, []⟩, [], [])
    ∧ (handle_workspace_refresh true 200 [] ⟨"", some 50, []⟩).1 = ⟨"", some 200, []⟩ :=
  ⟨(workspace_refresh_debounce ⟨"", some 50, []⟩ 100 []).1 50 rfl (by decide),
   ((workspace_refresh_debounce ⟨"", some 50, []⟩ 200 []).2
      (Or.inr ⟨50, rfl, by decide⟩)).1⟩

/-- Claim C2: with the lock healthy, a `focus-change` whose resolved name
equals the stored `front_app` produces no render event and leaves the state
unchanged; a differing name updates the stored value and produces exactly
one front-app render event, and that event comes after the lock release. -/
theorem front_app_dedup (iconMap pats : List (String × String))
    (app aero : Option String) (s : DaemonState) (a : String)
    (h : app.orElse (fun _ => aero) = some a) :
    (s.front_app = a →
        handle_front_app iconMap pats app aero true s =
          (s, [FAEvent.lockAcquire, FAEvent.lockRelease]))
    ∧ (s.front_app ≠ a →
        handle_front_app iconMap pats app aero true s =
          ({ s with front_app := a },
           [FAEvent.lockAcquire, FAEvent.lockRelease,
            FAEvent.render (update_front_app (get_icon iconMap pats a) a)])) := by
  constructor
  · intro heq
    simp [handle_front_app, h, heq]
  · intro hne
    simp [handle_front_app, h, hne]

/-- Witness for C2: resolving "Safari" against stored "Safari" yields only
the lock events; resolving "Mail" against stored "Safari" updates the state
and renders once after the release. -/
theorem front_app_dedup_witness :
    handle_front_app [] [] (some "Safari") none true ⟨"Safari", none, []⟩ =
      (⟨"Safari", none, []⟩, [FAEvent.lockAcquire, FAEvent.lockRelease])
    ∧ handle_front_app [] [] (some "Mail") none true ⟨"Safari", none, []⟩ =
      (⟨"Mail", none, []⟩,
       [FAEvent.lockAcquire, FAEvent.lockRelease,
        FAEvent.render (update_front_app ":default:" "Mail")]) :=
  ⟨(front_app_dedup [] [] (some "Safari") none ⟨"Safari", none, []⟩ "Safari" rfl).1 rfl,
   (front_app_dedup [] [] (some "Mail") none ⟨"Safari", none, []⟩ "Mail" rfl).2 (by decide)⟩

/-- Counterexample to claim C3: with a poisoned lock, `handle_front_app`
does not silently abort — the `if let Ok` block is skipped and the render
call at main.rs line 195 still runs, emitting one render-sink invocation
(here even though the resolved name equals the stored one). -/
theorem lock_failure_focus_still_renders :
    (handle_front_app [] [] (some "Safari") none false ⟨"Safari", none, []⟩).2 ≠ []
    ∧ (handle_front_app [] [] (some "Safari") none false ⟨"Safari", none, []⟩).2 =
        [FAEvent.render (update_front_app ":default:" "Safari")] := by
  exact ⟨by decide, rfl⟩

/-- Claim C3 as amended: on lock-acquisition failure no handler crashes and
no state change occurs; the workspace-change handler emits no render
instructions, but the focus-change handler skips only the deduplication
and state update and still issues its single render-sink invocation
whenever the name resolves. -/
theorem lock_failure_behavior (iconMap pats : List (String × String))
    (app aero : Option String) (now : Nat)
    (infos : List (String × WorkspaceInfo)) (s : DaemonState) :
    handle_workspace_refresh false now infos s = (s, [], [])
    ∧ (handle_front_app iconMap pats app aero false s).1 = s
    ∧ (handle_front_app iconMap pats app aero false s).2 =
        (app.orElse (fun _ => aero)).elim []
          (fun a => [FAEvent.render (update_front_app (get_icon iconMap pats a) a)]) := by
  refine ⟨rfl, ?_, ?_⟩ <;>
    cases happ : app.orElse (fun _ => aero) <;>
      simp [handle_front_app, happ]

/-- Claim C4, evaluated at the failing input: the message
`focus-change Safari` does carry the token `Safari`, but the dispatcher
invokes the handler with `None` (main.rs line 70), so the handler resolves
the name by querying the workspace-manager collaborator instead (here the
collaborator answers `Terminal`, which is what gets stored and rendered). -/
theorem focus_change_argument_dropped :
    tokenize "focus-change Safari" = ["focus-change", "Safari"]
    ∧ dispatch "focus-change Safari" = Action.focusChange none
    ∧ handle_front_app [] [] none (some "Terminal") true ⟨"", none, []⟩ =
        (⟨"Terminal", none, []⟩,
         [FAEvent.lockAcquire, FAEvent.lockRelease,
          FAEvent.render (update_front_app ":default:" "Terminal")]) := by
  exact ⟨by decide, by decide, rfl⟩

/-- Claim C6: the instruction emitted for a slot always exhibits the branch
`branchOf has_apps is_focused`, a pure function of the boolean pair alone
(independent of the workspace id, colors, icons, and display), and the four
branches correspond exactly, mutually exclusively and exhaustively, to the
four values of the pair. -/
theorem branch_selection (ws_id bg icons : String) (display_id : Nat)
    (has_apps is_focused : Bool) :
    observedBranch (instrProps (slotInstr ws_id bg has_apps is_focused icons display_id)) =
        branchOf has_apps is_focused
    ∧ (branchOf has_apps is_focused = Branch.occupiedFocused ↔
        has_apps = true ∧ is_focused = true)
    ∧ (branchOf has_apps is_focused = Branch.occupiedUnfocused ↔
        has_apps = true ∧ is_focused = false)
    ∧ (branchOf has_apps is_focused = Branch.emptyFocused ↔
        has_apps = false ∧ is_focused = true)
    ∧ (branchOf has_apps is_focused = Branch.emptyUnfocused ↔
        has_apps = false ∧ is_focused = false) := by
  cases has_apps <;> cases is_focused <;>
    exact ⟨rfl, by decide, by decide, by decide, by decide⟩

/-- Witness for C6 at a concrete slot. -/
theorem branch_selection_witness :
    observedBranch (instrProps (slotInstr "3" "0xff8ec07c" true true "X" 2)) =
      branchOf true true :=
  (branch_selection "3" "0xff8ec07c" "X" 2 true true).1

/-- Claim C7: the background color of slot `i` is determined by `i % 3`
(remainder 1 gives blue, 2 pink, 0 green), so the assignment is periodic
with period 3 across the slots 1..9. -/
theorem bg_color_mod_three (i : Nat) (_h1 : 1 ≤ i) (_h9 : i ≤ 9) :
    (i % 3 = 1 → bg_color i = "0xff83a598")
    ∧ (i % 3 = 2 → bg_color i = "0xffd3869b")
    ∧ (i % 3 = 0 → bg_color i = "0xff8ec07c")
    ∧ (∀ j, 1 ≤ j → j ≤ 9 → i % 3 = j % 3 → bg_color i = bg_color j)
    ∧ (i + 3 ≤ 9 → bg_color (i + 3) = bg_color i) := by
  have key : ∀ a b : Nat, a % 3 = b % 3 → bg_color a = bg_color b := by
    intro a b hab
    unfold bg_color
    rw [hab]
  refine ⟨?_, ?_, ?_, ?_, ?_⟩
  · intro h
    unfold bg_color
    rw [h]
  · intro h
    unfold bg_color
    rw [h]
  · intro h
    unfold bg_color
    rw [h]
  · intro j _ _ hij
    exact key i j hij
  · intro _
    exact key (i + 3) i (by omega)

/-- Witness for C7: slots 4 and 7 are blue, 5 is pink, 6 is green, and the
color repeats with period 3. -/
theorem bg_color_mod_three_witness :
    bg_color 4 = "0xff83a598" ∧ bg_color 5 = "0xffd3869b"
    ∧ bg_color 6 = "0xff8ec07c" ∧ bg_color 7 = bg_color 4 :=
  ⟨(bg_color_mod_three 4 (by decide) (by decide)).1 (by decide),
   (bg_color_mod_three 5 (by decide) (by decide)).2.1 (by decide),
   (bg_color_mod_three 6 (by decide) (by decide)).2.2.1 (by decide),
   (bg_color_mod_three 7 (by decide) (by decide)).2.2.2.1 4 (by decide) (by decide) (by decide)⟩

/-- Claim C9: a slot absent from the occupancy snapshot defaults to
no apps, not focused, empty icon string and monitor 1; it is therefore
rendered through the empty-and-unfocused branch and targeted at the
display the monitor mapping assigns to monitor 1 (or skipped with a
warning when monitor 1 has no mapped display). -/
theorem absent_slot_defaults (mappings : List (Nat × Nat))
    (infos : List (String × WorkspaceInfo)) (i : Nat)
    (habs : slotInfo infos i = none) :
    slot_has_apps infos i = false
    ∧ slot_is_focused infos i = false
    ∧ slot_icons infos i = ""
    ∧ slot_monitor infos i = 1
    ∧ (∀ d, findDisplay mappings 1 = some d →
        slotRender mappings infos i =
            ([(d, slotInstr (toString i) (bg_color i) false false "" d)], [])
        ∧ observedBranch
            (instrProps (slotInstr (toString i) (bg_color i) false false "" d)) =
              Branch.emptyUnfocused)
    ∧ (findDisplay mappings 1 = none →
        slotRender mappings infos i = ([], [slotWarning infos i])) := by
  have h1 : slot_has_apps infos i = false := by simp [slot_has_apps, habs]
  have h2 : slot_is_focused infos i = false := by simp [slot_is_focused, habs]
  have h3 : slot_icons infos i = "" := by simp [slot_icons, habs]
  have h4 : slot_monitor infos i = 1 := by simp [slot_monitor, habs]
  refine ⟨h1, h2, h3, h4, ?_, ?_⟩
  · intro d hd
    constructor
    · simp [slotRender, h4, hd, h1, h2, h3]
    · rfl
  · intro hnone
    simp [slotRender, h4, hnone]

/-- Witness for C9: with an empty snapshot and monitor 1 mapped to
display 2, slot 5 defaults to monitor 1. -/
theorem absent_slot_defaults_witness :
    slot_monitor [] 5 = 1 ∧
    slotRender [(2, 1)] [] 5 =
      ([(2, slotInstr (toString 5) (bg_color 5) false false "" 2)], []) :=
  ⟨(absent_slot_defaults [(2, 1)] [] 5 rfl).2.2.2.1,
   ((absent_slot_defaults [(2, 1)] [] 5 rfl).2.2.2.2.1 2 rfl).1⟩

/-! ### Tokenizer characterization (claim C5) -/

lemma splitAtSpace_none : ∀ cs : List Char, splitAtSpace cs = none → ' ' ∉ cs := by
  intro cs
  induction cs with
  | nil => intro _; simp
  | cons c cs ih =>
    intro h
    by_cases hc : c = ' '
    · simp only [splitAtSpace, if_pos hc] at h
      exact Option.noConfusion h
    · simp only [splitAtSpace, if_neg hc] at h
      cases hs : splitAtSpace cs with
      | none =>
        simp only [List.mem_cons, not_or]
        exact ⟨fun he => hc he.symm, ih hs⟩
      | some pq => rw [hs] at h; cases h

lemma splitAtSpace_some : ∀ (cs p q : List Char), splitAtSpace cs = some (p, q) →
    cs = p ++ ' ' :: q ∧ ' ' ∉ p := by
  intro cs
  induction cs with
  | nil => intro p q h; cases h
  | cons c cs ih =>
    intro p q h
    by_cases hc : c = ' '
    · simp only [splitAtSpace, if_pos hc] at h
      injection h with h
      injection h with hp hq
      subst hp; subst hq
      simp [hc]
    · simp only [splitAtSpace, if_neg hc] at h
      cases hs : splitAtSpace cs with
      | none => rw [hs] at h; cases h
      | some pq =>
        obtain ⟨p0, q0⟩ := pq
        rw [hs] at h
        injection h with h
        injection h with hp hq
        subst hp; subst hq
        obtain ⟨hcs, hnp⟩ := ih p0 q0 hs
        constructor
        · rw [hcs]; rfl
        · simp only [List.mem_cons, not_or]
          exact ⟨fun he => hc he.symm, hnp⟩

lemma splitnSpace_ne_nil : ∀ (n : Nat), 1 ≤ n → ∀ cs : List Char,
    splitnSpace n cs ≠ [] := by
  intro n hn cs
  cases n with
  | zero => omega
  | succ m =>
    cases m with
    | zero => simp [splitnSpace]
    | succ k =>
      simp only [splitnSpace]
      cases hs : splitAtSpace cs with
      | none => simp
      | some pq => obtain ⟨p, q⟩ := pq; simp

lemma splitnSpace_spec : ∀ (n : Nat), 1 ≤ n → ∀ cs : List Char,
    (splitnSpace n cs).length ≤ n
    ∧ (∀ t ∈ (splitnSpace n cs).dropLast, ' ' ∉ t)
    ∧ joinTok (splitnSpace n cs) = cs := by
  intro n
  induction n with
  | zero => intro h; omega
  | succ m ih =>
    intro _ cs
    cases m with
    | zero =>
      refine ⟨by simp [splitnSpace], ?_, rfl⟩
      simp [splitnSpace]
    | succ k =>
      simp only [splitnSpace]
      cases hs : splitAtSpace cs with
      | none =>
        refine ⟨by simp, ?_, rfl⟩
        simp
      | some pq =>
        obtain ⟨p, q⟩ := pq
        obtain ⟨hcs, hnp⟩ := splitAtSpace_some cs p q hs
        obtain ⟨hlen, hdrop, hjoin⟩ := ih (by omega) q
        have hne := splitnSpace_ne_nil (k + 1) (by omega) q
        refine ⟨?_, ?_, ?_⟩
        · simpa using Nat.succ_le_succ hlen
        · intro t ht
          rw [List.dropLast_cons_of_ne_nil hne] at ht
          rcases List.mem_cons.mp ht with h1 | h1
          · exact h1 ▸ hnp
          · exact hdrop t h1
        · cases hq : splitnSpace (k + 1) q with
          | nil => exact absurd hq hne
          | cons u ts =>
            rw [hq] at hjoin
            simp only [hq, joinTok]
            rw [hjoin, hcs]

/-- Counterexample to claim C5 as stated: a tab, or a run of two spaces,
between the verb and its argument does not tokenize like a single space
(`splitn(3, ' ')` splits at the space character only). -/
theorem tokenize_tab_differs :
    tokenize "volume	50" = ["volume	50"]
    ∧ tokenize "volume  50" = ["volume", "", "50"]
    ∧ tokenize "volume 50" = ["volume", "50"]
    ∧ tokenize "volume	50" ≠ tokenize "volume 50" := by
  exact ⟨by decide, by decide, by decide, by decide⟩

/-- Claim C5 as amended: the dispatcher trims the line and splits it at
the single space character into at most 3 tokens; the tokens before the
last contain no space, rejoining the tokens with single spaces restores
the trimmed line (so the last token is not further split), and the token
list is exactly `splitn(3, ' ')` of the trimmed line. -/
theorem tokenize_single_space_split (line : String) :
    (tokenize line).length ≤ 3
    ∧ (∀ t ∈ (splitnSpace 3 (trimChars line.toList)).dropLast, ' ' ∉ t)
    ∧ joinTok (splitnSpace 3 (trimChars line.toList)) = trimChars line.toList
    ∧ tokenize line = (splitnSpace 3 (trimChars line.toList)).map (fun cs => String.mk cs) := by
  obtain ⟨hlen, hdrop, hjoin⟩ := splitnSpace_spec 3 (by decide) (trimChars line.toList)
  exact ⟨by simpa [tokenize] using hlen, hdrop, hjoin, rfl⟩

/-- Witness for C5 (amended): rejoining the tokens of a concrete line
restores its trimmed character list. -/
theorem tokenize_single_space_split_witness :
    joinTok (splitnSpace 3 (trimChars (String.toList " volume 50 "))) =
      trimChars (String.toList " volume 50 ") :=
  (tokenize_single_space_split " volume 50 ").2.2.1

/-! ### Monitor-mapping scan (claim C8) -/

lemma findDisplay_eq_find? (mappings : List (Nat × Nat)) (m : Nat) :
    findDisplay mappings m = (mappings.find? (fun p => p.2 == m)).map Prod.fst := by
  induction mappings with
  | nil => rfl
  | cons x rest ih =>
    obtain ⟨d, am⟩ := x
    by_cases h : am = m
    · have hb : (am == m) = true := by simp [h]
      simp [findDisplay, List.find?_cons, hb, h]
    · have hb : (am == m) = false := by simp [h]
      simp [findDisplay, List.find?_cons, hb, h, ih]

lemma findDisplay_append_first (pre : List (Nat × Nat)) (d m : Nat)
    (post : List (Nat × Nat)) (h : ∀ p ∈ pre, p.2 ≠ m) :
    findDisplay (pre ++ (d, m) :: post) m = some d := by
  induction pre with
  | nil => simp [findDisplay]
  | cons x rest ih =>
    obtain ⟨d0, am0⟩ := x
    have hne : am0 ≠ m := h (d0, am0) (by simp)
    simp only [List.cons_append, findDisplay, if_neg hne]
    exact ih (fun p hp => h p (by simp [hp]))

/-- Claim C8: the target display of a slot is the first monitor-mapping
entry whose monitor id equals the slot's monitor (the scan is `find?` on
the ordered list, and any entry preceded only by non-matching entries
wins); each slot emits at most one instruction; with no match the slot
emits nothing and logs a warning; and the slot loop processes the
remaining slots regardless of what one slot produced. -/
theorem monitor_first_match_skip (mappings : List (Nat × Nat)) (m : Nat)
    (infos : List (String × WorkspaceInfo)) (i : Nat) :
    findDisplay mappings m = (mappings.find? (fun p => p.2 == m)).map Prod.fst
    ∧ (∀ pre d post, (∀ p ∈ pre, p.2 ≠ m) →
        findDisplay (pre ++ (d, m) :: post) m = some d)
    ∧ (slotRender mappings infos i).1.length ≤ 1
    ∧ (findDisplay mappings (slot_monitor infos i) = none →
        slotRender mappings infos i = ([], [slotWarning infos i]))
    ∧ (∀ rest, renderSlots mappings infos (i :: rest) =
        ((slotRender mappings infos i).1 ++ (renderSlots mappings infos rest).1,
         (slotRender mappings infos i).2 ++ (renderSlots mappings infos rest).2)) := by
  refine ⟨findDisplay_eq_find? mappings m,
          fun pre d post h => findDisplay_append_first pre d m post h,
          ?_, ?_, fun rest => rfl⟩
  · cases h : findDisplay mappings (slot_monitor infos i) with
    | none => simp [slotRender, h]
    | some d => simp [slotRender, h]
  · intro h
    simp [slotRender, h]

/-- Witness for C8: in the mapping `[(5,2), (6,1), (7,1)]` the first entry
matching monitor 1 is display 6. -/
theorem monitor_first_match_skip_witness :
    findDisplay ([(5, 2)] ++ (6, 1) :: [(7, 1)]) 1 = some 6 :=
  (monitor_first_match_skip [(5, 2), (6, 1), (7, 1)] 1 [] 1).2.1
    [(5, 2)] 6 [(7, 1)] (by decide)

/-! ### Decimal representations contain only digits (claim C10) -/

lemma digitChar_isDigit (m : Nat) (h : m < 10) : (Nat.digitChar m).isDigit = true := by
  interval_cases m <;> decide

lemma toDigitsCore_mem_digits :
    ∀ (f n : Nat) (l : List Char) (c : Char),
      c ∈ Nat.toDigitsCore 10 f n l → c ∈ l ∨ c.isDigit = true := by
  intro f
  induction f with
  | zero => intro n l c h; exact Or.inl h
  | succ f ih =>
    intro n l c h
    simp only [Nat.toDigitsCore] at h
    by_cases h10 : n / 10 = 0
    · rw [if_pos h10] at h
      rcases List.mem_cons.mp h with hc | hc
      · exact Or.inr (hc ▸ digitChar_isDigit (n % 10) (Nat.mod_lt _ (by decide)))
      · exact Or.inl hc
    · rw [if_neg h10] at h
      rcases ih (n / 10) (Nat.digitChar (n % 10) :: l) c h with hc | hc
      · rcases List.mem_cons.mp hc with hc2 | hc2
        · exact Or.inr (hc2 ▸ digitChar_isDigit (n % 10) (Nat.mod_lt _ (by decide)))
        · exact Or.inl hc2
      · exact Or.inr hc

lemma repr_ne_checkmark (n : Nat) : Nat.repr n ≠ "✓" := by
  intro h
  have hdata : Nat.toDigits 10 n = ['✓'] := congrArg String.data h
  have hmem : '✓' ∈ Nat.toDigitsCore 10 (n + 1) n [] := by
    have : Nat.toDigitsCore 10 (n + 1) n [] = ['✓'] := hdata
    rw [this]
    exact List.mem_singleton.mpr rfl
  rcases toDigitsCore_mem_digits (n + 1) n [] '✓' hmem with hc | hc
  · exact absurd hc (List.not_mem_nil _)
  · exact absurd hc (by decide)

/-- Claim C10: the brew render update sets the item's label to the
checkmark glyph exactly when `formulae + casks = 0`, and otherwise to the
decimal representation of the sum. -/
theorem brew_label_total (icon : String) (formulae casks : Nat) :
    (instrProps (update_brew icon formulae casks)).lookup "label" =
        some (brewLabel formulae casks)
    ∧ (brewLabel formulae casks = "✓" ↔ formulae + casks = 0)
    ∧ (formulae + casks ≠ 0 → brewLabel formulae casks = Nat.repr (formulae + casks)) := by
  refine ⟨rfl, ⟨?_, ?_⟩, ?_⟩
  · intro h
    by_contra hne
    simp only [brewLabel, if_neg hne] at h
    exact repr_ne_checkmark (formulae + casks) h
  · intro h
    simp [brewLabel, h]
  · intro h
    simp only [brewLabel, if_neg h]
    rfl

/-- Witness for C10: zero outdated packages give the checkmark; five give
the decimal label. -/
theorem brew_label_total_witness :
    (brewLabel 0 0 = "✓" ↔ (0 : Nat) + 0 = 0) ∧ brewLabel 2 3 = Nat.repr 5 :=
  ⟨(brew_label_total "icon" 0 0).2.1,
   (brew_label_total "icon" 2 3).2.2 (by decide)⟩

end Sketchybartender
